import Mathlib

/-!
Verification of the SafeWeave scan-orchestration gateway core against its
design document. The definitions below are shallow embeddings of the
TypeScript sources under packages/gateway/src (router, scanner client,
profiles, license client, MCP server scoring): pure data is translated to
Lean structures, the mutable Map-based state becomes explicit
association-list state passing, and the fetch-based RPCs become explicit
outcome parameters describing what the remote end did.
-/

namespace Safeweave

/-- Single quote character, used when assembling warning strings. -/
def squote : String := (Char.ofNat 39).toString

/-! ## Finding model (packages/common/src/types.ts) -/

/-- Severity enum from common/types.ts. -/
inductive Severity where
  | critical
  | high
  | medium
  | low
  | info
deriving DecidableEq, Repr

/-- The name string of a severity, as used for object keys in JS. -/
def severityName : Severity → String
  | .critical => "critical"
  | .high => "high"
  | .medium => "medium"
  | .low => "low"
  | .info => "info"

/-- Finding interface from common/types.ts. -/
structure Finding where
  id : String
  severity : Severity
  title : String
  description : String
  file : String
  line : Option Nat
  cwe : Option String
  compliance : Option (List String)
  remediation : String
  code_snippet : Option String
  fix_snippet : Option String
deriving DecidableEq, Repr

/-- FileTarget interface from common/types.ts. -/
structure FileTarget where
  path : String
  content : Option String
deriving DecidableEq, Repr

/-- ProjectContext interface from common/types.ts. -/
structure ProjectContext where
  language : Option String
  framework : Option String
  rootDir : Option String
  target_url : Option String
deriving DecidableEq, Repr

/-- ScanMetadata interface from common/types.ts. -/
structure ScanMetadata where
  scanner : String
  version : String
  duration_ms : Nat
  files_scanned : Nat
  timestamp : String
  warnings : Option (List String)
deriving DecidableEq, Repr

/-- ScanResult interface from common/types.ts. -/
structure ScanResult where
  findings : List Finding
  metadata : ScanMetadata
deriving DecidableEq, Repr

/-! ## JSON-like values and association lists

The gateway stores profiles and rule configuration as plain JS objects and
iterates them in insertion order; we model them as association lists.
`alistGet` is property lookup / Map.get, `alistSet` is property assignment /
Map.set (updates the first matching key in place, appends a new key at the
end), matching JS enumeration-order semantics. -/

/-- Lookup in an association list keyed by strings (JS property read). -/
def alistGet {α : Type} : List (String × α) → String → Option α
  | [], _ => none
  | (k, v) :: rest, key => if k = key then some v else alistGet rest key

/-- Update or append in an association list (JS property write / Map.set). -/
def alistSet {α : Type} : List (String × α) → String → α → List (String × α)
  | [], key, v => [(key, v)]
  | (k, w) :: rest, key, v =>
    if k = key then (k, v) :: rest else (k, w) :: alistSet rest key v

/-- Delete a key from an association list (JS delete operator). -/
def alistDelete {α : Type} : List (String × α) → String → List (String × α)
  | [], _ => []
  | (k, w) :: rest, key =>
    if k = key then rest else (k, w) :: alistDelete rest key

/-- ProfileRules from common/types.ts: a profile-name plus opaque rules object. -/
structure ProfileRules where
  name : String
  rules : List (String × String)
deriving DecidableEq, Repr

/-- ScanRequest interface from common/types.ts. -/
structure ScanRequest where
  files : List FileTarget
  profile : ProfileRules
  context : ProjectContext
deriving DecidableEq, Repr

/-! ## Deduplication (packages/gateway/src/router/index.ts, deduplicateFindings) -/

/-- JS template interpolation of the optional line number: an absent line
prints as the string undefined. -/
def lineString : Option Nat → String
  | none => "undefined"
  | some n => toString n

/-- The fallback expression f.cwe or f.title from the source key template:
JS || takes the title when cwe is undefined or the empty string (falsy). -/
def cweOrTitle (f : Finding) : String :=
  match f.cwe with
  | some c => if c = "" then f.title else c
  | none => f.title

/-- The dedup key template from deduplicateFindings. -/
def findingKey (f : Finding) : String :=
  f.file ++ ":" ++ lineString f.line ++ ":" ++ cweOrTitle f

/-- The filter loop inside deduplicateFindings, with the JS Set of seen keys
made explicit. -/
def dedupAux (seen : List String) : List Finding → List Finding
  | [] => []
  | f :: rest =>
    if findingKey f ∈ seen then dedupAux seen rest
    else f :: dedupAux (findingKey f :: seen) rest

/-- deduplicateFindings from router/index.ts. -/
def deduplicateFindings (findings : List Finding) : List Finding :=
  dedupAux [] findings

/-! ## Scanner client (packages/gateway/src/router/scanner-client.ts)

ScannerClient.scan wraps one POST /scan fetch. We model what the remote
side and the network did as a FetchOutcome: the fetch promise rejected
(network or transport error), or a response arrived with an ok flag, a
status code and a body that either parses as a ScanResult or throws. -/

/-- Outcome of the fetch call inside ScannerClient.scan. -/
inductive FetchOutcome where
  | fetchError (msg : String)
  | httpResponse (ok : Bool) (status : Nat) (body : Except String ScanResult)
deriving Repr

/-- The degraded-result warning string from the catch block of scan. -/
def scannerUnavailableMsg (name msg : String) : String :=
  "Scanner " ++ squote ++ name ++ squote ++ " unavailable: " ++ msg

/-- The degraded ScanResult built in the catch block of ScannerClient.scan. -/
def degradedResult (name ts msg : String) : ScanResult :=
  { findings := [],
    metadata :=
      { scanner := name, version := "0.0.0", duration_ms := 0,
        files_scanned := 0, timestamp := ts,
        warnings := some [scannerUnavailableMsg name msg] } }

namespace ScannerClient

/-- ScannerClient.scan: try/fetch/response.ok check/json parse, with every
failure converted by the catch block into a degraded result. The thrown
message for a non-ok response is the template from the source. -/
def scan (name ts : String) : FetchOutcome → ScanResult
  | .fetchError msg => degradedResult name ts msg
  | .httpResponse ok status body =>
    if ok then
      match body with
      | .ok r => r
      | .error msg => degradedResult name ts msg
    else degradedResult name ts ("Scanner " ++ name ++ " returned " ++ toString status)

end ScannerClient

/-- True when the fetch produced an ok response with a parseable body, the
only case in which scan returns the backend result unchanged. -/
def FetchOutcome.isSuccess : FetchOutcome → Bool
  | .httpResponse true _ (Except.ok _) => true
  | _ => false

/-- True for a successful response whose ScanResult carries no warnings. -/
def FetchOutcome.cleanSuccess : FetchOutcome → Bool
  | .httpResponse true _ (Except.ok r) => r.metadata.warnings.isNone
  | _ => false

/-- The findings a backend contributed: its reported findings on RPC
success, nothing on failure. -/
def successFindings : FetchOutcome → List Finding
  | .httpResponse true _ (Except.ok r) => r.findings
  | _ => []

/-! ## Router (packages/gateway/src/router/index.ts)

The router state is its insertion-ordered Map from backend name to client;
for one request we carry, per enabled backend, the FetchOutcome its scan
RPC produced. -/

namespace Router

/-- Router.scanAll: filter to the requested subset (all when the set is
omitted), run every scan, concatenate findings and warnings in
registration order, deduplicate, and assemble gateway metadata. The
end-to-end duration measurement is an input here. -/
def scanAll (clients : List (String × FetchOutcome)) (request : ScanRequest)
    (requestedScanners : Option (List String)) (durationMs : Nat) (ts : String) :
    ScanResult :=
  let dispatched := clients.filter fun c =>
    match requestedScanners with
    | none => true
    | some rs => rs.contains c.1
  let results := dispatched.map fun c => ScannerClient.scan c.1 ts c.2
  let allFindings := (results.map ScanResult.findings).flatten
  let allWarnings := (results.filterMap fun r => r.metadata.warnings).flatten
  { findings := deduplicateFindings allFindings,
    metadata :=
      { scanner := "safeweave-gateway", version := "0.1.0",
        duration_ms := durationMs, files_scanned := request.files.length,
        timestamp := ts,
        warnings := if allWarnings.isEmpty then none else some allWarnings } }

/-- Router.scanWith: direct single-backend call; an unknown backend name
yields the empty zero-duration result from the source, without warnings. -/
def scanWith (clients : List (String × FetchOutcome)) (scannerName : String)
    (_request : ScanRequest) (ts : String) : ScanResult :=
  match alistGet clients scannerName with
  | none =>
    { findings := [],
      metadata :=
        { scanner := scannerName, version := "0.0.0", duration_ms := 0,
          files_scanned := 0, timestamp := ts, warnings := none } }
  | some o => ScannerClient.scan scannerName ts o

end Router

/-! ## License client (packages/gateway/src/license.ts)

validate consults an in-memory cache keyed by license key, then calls the
remote authority. We pass the current clock and what the remote call did,
and return the verdict together with the updated cache and a flag recording
whether the fetch was issued at all. -/

/-- LicenseValidation interface from license.ts. -/
structure LicenseValidation where
  valid : Bool
  plan : Option String
  features : List String
  expires_at : Option String
deriving DecidableEq, Repr

/-- CacheEntry interface from license.ts. -/
structure CacheEntry where
  result : LicenseValidation
  expiry : Nat
deriving DecidableEq, Repr

/-- CACHE_TTL_MS constant from license.ts (one hour). -/
def CACHE_TTL_MS : Nat := 60 * 60 * 1000

/-- INVALID_RESULT constant from license.ts. -/
def INVALID_RESULT : LicenseValidation :=
  { valid := false, plan := none, features := [], expires_at := none }

/-- What the remote license authority did for one validate fetch: a parsed
verdict body, a non-ok status, or an unreachable server (the fetch or the
body parse threw, including the 5 second timeout). -/
inductive RemoteBehavior where
  | ok (v : LicenseValidation)
  | httpError
  | unreachable
deriving Repr

/-- Result of one validate step: verdict, updated cache, and whether the
remote authority was actually contacted. -/
structure ValidateStep where
  result : LicenseValidation
  cache : List (String × CacheEntry)
  remoteCalled : Bool
deriving Repr

namespace LicenseClient

/-- The body of validate past the cache check: non-ok status and thrown
errors both yield INVALID_RESULT without caching; a parsed verdict is
cached only when it is valid. -/
def validateRemote (cache : List (String × CacheEntry)) (key : String)
    (now : Nat) (remote : RemoteBehavior) : ValidateStep :=
  match remote with
  | .unreachable => { result := INVALID_RESULT, cache := cache, remoteCalled := true }
  | .httpError => { result := INVALID_RESULT, cache := cache, remoteCalled := true }
  | .ok v =>
    if v.valid then
      { result := v,
        cache := alistSet cache key { result := v, expiry := now + CACHE_TTL_MS },
        remoteCalled := true }
    else { result := v, cache := cache, remoteCalled := true }

/-- LicenseClient.validate: return the cached verdict while it is fresh
(strictly before its expiry), otherwise go to the remote authority. -/
def validate (cache : List (String × CacheEntry)) (key : String) (now : Nat)
    (remote : RemoteBehavior) : ValidateStep :=
  match alistGet cache key with
  | some entry =>
    if now < entry.expiry then
      { result := entry.result, cache := cache, remoteCalled := false }
    else validateRemote cache key now remote
  | none => validateRemote cache key now remote

end LicenseClient

/-! ## Licensed REST scan gate (http-bridge with LicenseClient)

The licensed POST /api/scan handler validates the key first and sends 403
when the verdict is not valid; its catch block is intended to allow the
scan when the license server is unreachable. Since validate itself never
throws, the decision reduces to the verdict validity. -/

/-- Decision the licensed /api/scan handler takes before scanning. -/
inductive GateDecision where
  | reject403
  | proceed
deriving DecidableEq, Repr

/-- The license gate of the licensed POST /api/scan handler: validate, then
403 unless the verdict says valid. validate returns (never throws), so the
offline-mode catch branch of the handler is unreachable. -/
def scanLicenseGate (cache : List (String × CacheEntry)) (key : String)
    (now : Nat) (remote : RemoteBehavior) : GateDecision :=
  if (LicenseClient.validate cache key now remote).result.valid then
    GateDecision.proceed
  else GateDecision.reject403

/-! ## Profiles (packages/gateway/src/profiles/index.ts)

Profiles are plain JS objects; deepMerge walks them structurally. We use a
JSON value tree with objects as insertion-ordered association lists.
Numeric rule values (CVSS ceilings such as 7.0) are opaque to every
operation modelled here, so they are carried as integers. -/

/-- JSON-like value for profile bodies and rule configuration. -/
inductive JsonVal where
  | str (s : String)
  | num (n : Int)
  | bool (b : Bool)
  | null
  | arr (xs : List JsonVal)
  | obj (fields : List (String × JsonVal))

/-- deepMerge from profiles/index.ts, with the JS loop made explicit:
target is the object the lookups read, acc is the result object being
assigned into (initially a copy of target), and the third argument is the
remaining source entries in key order. The extends key is skipped; when
both sides hold (non-array, non-null) objects the merge recurses,
otherwise the source value replaces the target value. -/
def deepMergeAux (target acc : List (String × JsonVal)) :
    List (String × JsonVal) → List (String × JsonVal)
  | [] => acc
  | (k, sv) :: rest =>
    if k = "extends" then deepMergeAux target acc rest
    else
      match alistGet target k, sv with
      | some (JsonVal.obj tf), JsonVal.obj sf =>
        deepMergeAux target (alistSet acc k (JsonVal.obj (deepMergeAux tf tf sf))) rest
      | _, _ => deepMergeAux target (alistSet acc k sv) rest
termination_by source => sizeOf source

/-- deepMerge from profiles/index.ts. -/
def deepMerge (target source : List (String × JsonVal)) : List (String × JsonVal) :=
  deepMergeAux target target source

/-! ### Built-in profiles (BUILT_IN_PROFILES in profiles/index.ts)

Each profile object is transcribed field-for-field as a JSON field list,
keyed by its registry name. -/

/-- Field list of the standard built-in profile. -/
def standardProfileFields : List (String × JsonVal) :=
  [("name", JsonVal.str "standard"),
   ("version", JsonVal.str "1.0"),
   ("description", JsonVal.str "Standard security profile — OWASP Top 10, common CVEs, secrets detection"),
   ("severity_thresholds", JsonVal.obj
     [("error", JsonVal.str "high"), ("warn", JsonVal.str "medium")]),
   ("rules", JsonVal.obj
     [("sast", JsonVal.obj
        [("enabled", JsonVal.bool true),
         ("rulesets", JsonVal.arr [JsonVal.str "owasp-top-10"])]),
      ("dependencies", JsonVal.obj
        [("enabled", JsonVal.bool true),
         ("max_cvss_score", JsonVal.num 7),
         ("require_lockfile", JsonVal.bool true)]),
      ("secrets", JsonVal.obj [("enabled", JsonVal.bool true)])])]

/-- Field list of the hardened built-in profile. -/
def hardenedProfileFields : List (String × JsonVal) :=
  [("name", JsonVal.str "hardened"),
   ("version", JsonVal.str "1.0"),
   ("description", JsonVal.str "Hardened security profile — strict thresholds, crypto requirements"),
   ("severity_thresholds", JsonVal.obj
     [("error", JsonVal.str "medium"), ("warn", JsonVal.str "low")]),
   ("rules", JsonVal.obj
     [("sast", JsonVal.obj
        [("enabled", JsonVal.bool true),
         ("rulesets", JsonVal.arr
           [JsonVal.str "owasp-top-10", JsonVal.str "crypto-best-practices",
            JsonVal.str "auth-best-practices"]),
         ("custom_rules", JsonVal.arr
           [JsonVal.str "enforce-tls-1.2-minimum", JsonVal.str "no-eval",
            JsonVal.str "no-dynamic-require"])]),
      ("dependencies", JsonVal.obj
        [("enabled", JsonVal.bool true),
         ("max_cvss_score", JsonVal.num 4),
         ("blocked_licenses", JsonVal.arr [JsonVal.str "AGPL-3.0"]),
         ("require_lockfile", JsonVal.bool true)]),
      ("secrets", JsonVal.obj [("enabled", JsonVal.bool true)])])]

/-- Field list of the owasp built-in profile. -/
def owaspProfileFields : List (String × JsonVal) :=
  [("name", JsonVal.str "owasp"),
   ("version", JsonVal.str "1.0"),
   ("description", JsonVal.str "OWASP Top 10 focused profile"),
   ("severity_thresholds", JsonVal.obj
     [("error", JsonVal.str "high"), ("warn", JsonVal.str "medium")]),
   ("rules", JsonVal.obj
     [("sast", JsonVal.obj
        [("enabled", JsonVal.bool true),
         ("rulesets", JsonVal.arr
           [JsonVal.str "owasp-top-10", JsonVal.str "injection", JsonVal.str "xss",
            JsonVal.str "ssrf", JsonVal.str "broken-access-control"]),
         ("custom_rules", JsonVal.arr
           [JsonVal.str "no-eval", JsonVal.str "no-innerHTML",
            JsonVal.str "enforce-parameterized-queries"])]),
      ("dependencies", JsonVal.obj
        [("enabled", JsonVal.bool true),
         ("max_cvss_score", JsonVal.num 7),
         ("require_lockfile", JsonVal.bool true)]),
      ("secrets", JsonVal.obj [("enabled", JsonVal.bool true)]),
      ("iac", JsonVal.obj [("enabled", JsonVal.bool true)]),
      ("dast", JsonVal.obj
        [("enabled", JsonVal.bool true),
         ("checks", JsonVal.arr
           [JsonVal.str "sql-injection", JsonVal.str "xss-reflected",
            JsonVal.str "xss-stored", JsonVal.str "ssrf",
            JsonVal.str "open-redirect"])])])]

/-- Field list of the soc2 built-in profile. -/
def soc2ProfileFields : List (String × JsonVal) :=
  [("name", JsonVal.str "soc2"),
   ("version", JsonVal.str "1.0"),
   ("description", JsonVal.str "SOC 2 Type II compliance profile"),
   ("severity_thresholds", JsonVal.obj
     [("error", JsonVal.str "medium"), ("warn", JsonVal.str "low")]),
   ("rules", JsonVal.obj
     [("sast", JsonVal.obj
        [("enabled", JsonVal.bool true),
         ("rulesets", JsonVal.arr
           [JsonVal.str "owasp-top-10", JsonVal.str "auth-best-practices",
            JsonVal.str "crypto-best-practices"]),
         ("custom_rules", JsonVal.arr
           [JsonVal.str "enforce-tls-1.2-minimum", JsonVal.str "require-audit-logging",
            JsonVal.str "enforce-session-timeout",
            JsonVal.str "no-hardcoded-credentials"])]),
      ("dependencies", JsonVal.obj
        [("enabled", JsonVal.bool true),
         ("max_cvss_score", JsonVal.num 5),
         ("require_lockfile", JsonVal.bool true)]),
      ("secrets", JsonVal.obj [("enabled", JsonVal.bool true)]),
      ("container", JsonVal.obj
        [("enabled", JsonVal.bool true), ("require_non_root", JsonVal.bool true)]),
      ("iac", JsonVal.obj [("enabled", JsonVal.bool true)])])]

/-- Field list of the pci-dss built-in profile. -/
def pciDssProfileFields : List (String × JsonVal) :=
  [("name", JsonVal.str "pci-dss"),
   ("version", JsonVal.str "1.0"),
   ("description", JsonVal.str "PCI DSS v4.0 compliance profile"),
   ("severity_thresholds", JsonVal.obj
     [("error", JsonVal.str "medium"), ("warn", JsonVal.str "low")]),
   ("rules", JsonVal.obj
     [("sast", JsonVal.obj
        [("enabled", JsonVal.bool true),
         ("rulesets", JsonVal.arr
           [JsonVal.str "owasp-top-10", JsonVal.str "crypto-best-practices",
            JsonVal.str "auth-best-practices"]),
         ("custom_rules", JsonVal.arr
           [JsonVal.str "enforce-tls-1.2-minimum", JsonVal.str "no-weak-ciphers",
            JsonVal.str "no-plaintext-pan", JsonVal.str "enforce-input-validation",
            JsonVal.str "require-audit-logging",
            JsonVal.str "enforce-session-timeout"])]),
      ("dependencies", JsonVal.obj
        [("enabled", JsonVal.bool true),
         ("max_cvss_score", JsonVal.num 4),
         ("blocked_licenses", JsonVal.arr [JsonVal.str "AGPL-3.0"]),
         ("require_lockfile", JsonVal.bool true)]),
      ("secrets", JsonVal.obj [("enabled", JsonVal.bool true)]),
      ("container", JsonVal.obj
        [("enabled", JsonVal.bool true), ("require_non_root", JsonVal.bool true),
         ("blocked_base_images", JsonVal.arr [JsonVal.str "latest"])]),
      ("iac", JsonVal.obj [("enabled", JsonVal.bool true)])])]

/-- Field list of the hipaa built-in profile. -/
def hipaaProfileFields : List (String × JsonVal) :=
  [("name", JsonVal.str "hipaa"),
   ("version", JsonVal.str "1.0"),
   ("description", JsonVal.str "HIPAA Security Rule compliance profile"),
   ("severity_thresholds", JsonVal.obj
     [("error", JsonVal.str "medium"), ("warn", JsonVal.str "low")]),
   ("rules", JsonVal.obj
     [("sast", JsonVal.obj
        [("enabled", JsonVal.bool true),
         ("rulesets", JsonVal.arr
           [JsonVal.str "owasp-top-10", JsonVal.str "crypto-best-practices",
            JsonVal.str "auth-best-practices"]),
         ("custom_rules", JsonVal.arr
           [JsonVal.str "enforce-tls-1.2-minimum",
            JsonVal.str "enforce-encryption-at-rest", JsonVal.str "no-phi-in-logs",
            JsonVal.str "require-audit-logging", JsonVal.str "enforce-access-control",
            JsonVal.str "enforce-session-timeout"])]),
      ("dependencies", JsonVal.obj
        [("enabled", JsonVal.bool true),
         ("max_cvss_score", JsonVal.num 4),
         ("require_lockfile", JsonVal.bool true)]),
      ("secrets", JsonVal.obj [("enabled", JsonVal.bool true)]),
      ("container", JsonVal.obj
        [("enabled", JsonVal.bool true), ("require_non_root", JsonVal.bool true)]),
      ("iac", JsonVal.obj [("enabled", JsonVal.bool true)])])]

/-- The BUILT_IN_PROFILES registry in its declaration order. Each stored
profile is its JSON field list. -/
def builtInProfiles : List (String × List (String × JsonVal)) :=
  [("standard", standardProfileFields),
   ("hardened", hardenedProfileFields),
   ("owasp", owaspProfileFields),
   ("soc2", soc2ProfileFields),
   ("pci-dss", pciDssProfileFields),
   ("hipaa", hipaaProfileFields)]

/-! ### ProfileManager (profiles/index.ts) -/

/-- ProfileManager state: the name-to-profile registry in insertion order
plus the active-profile pointer. -/
structure ProfileManagerState where
  profiles : List (String × List (String × JsonVal))
  activeProfile : String

namespace ProfileManager

/-- Fresh ProfileManager with the built-in registry, active = standard. -/
def init : ProfileManagerState :=
  { profiles := builtInProfiles, activeProfile := "standard" }

/-- ProfileManager.listProfiles: Object.keys in insertion order. -/
def listProfiles (pm : ProfileManagerState) : List String :=
  pm.profiles.map Prod.fst

/-- ProfileManager.getActive. -/
def getActive (pm : ProfileManagerState) : Option (List (String × JsonVal)) :=
  alistGet pm.profiles pm.activeProfile

/-- ProfileManager.getProfile. -/
def getProfile (pm : ProfileManagerState) (name : String) :
    Option (List (String × JsonVal)) :=
  alistGet pm.profiles name

/-- ProfileManager.setActive: throws the enumerating message on an unknown
name, otherwise moves the pointer. The pair returns the thrown-or-ok
outcome alongside the possibly updated state. -/
def setActive (pm : ProfileManagerState) (name : String) :
    Except String Unit × ProfileManagerState :=
  match alistGet pm.profiles name with
  | none =>
    (Except.error ("Unknown profile: " ++ name ++ ". Available: "
       ++ String.intercalate ", " (listProfiles pm)), pm)
  | some _ => (Except.ok (), { pm with activeProfile := name })

/-- ProfileManager.loadCustomProfile past the file read: parsed is the YAML
object of the override file when it exists. Without a truthy extends field
the method returns null; an unknown base throws; otherwise the override is
deep-merged onto the base, renamed custom, its extends marker deleted, and
the result registered. Returns the updated registry with the profile. -/
def loadCustomProfile (profiles : List (String × List (String × JsonVal)))
    (parsed : Option (List (String × JsonVal))) :
    Except String (Option ((List (String × List (String × JsonVal))) × List (String × JsonVal))) :=
  match parsed with
  | none => Except.ok none
  | some fields =>
    match alistGet fields "extends" with
    | some (JsonVal.str baseName) =>
      if baseName = "" then Except.ok none
      else
        match alistGet profiles baseName with
        | none => Except.error ("Unknown base profile: " ++ baseName)
        | some baseFields =>
          let merged := deepMerge baseFields fields
          let merged := alistSet merged "name" (JsonVal.str "custom")
          let merged := alistDelete merged "extends"
          Except.ok (some (alistSet profiles "custom" merged, merged))
    | _ => Except.ok none

end ProfileManager

/-- Path lookup through nested JSON objects, for stating facts about merged
profile bodies. -/
def jsonPath : List (String × JsonVal) → List String → Option JsonVal
  | _, [] => none
  | fields, [k] => alistGet fields k
  | fields, k :: rest =>
    match alistGet fields k with
    | some (JsonVal.obj sub) => jsonPath sub rest
    | _ => none

/-! ## Security score (packages/gateway/src/server.ts, calculateScore) -/

/-- Return shape of calculateScore. -/
structure ScoreResult where
  score : Int
  status : String
  breakdown : List (String × Nat)
deriving DecidableEq, Repr

/-- The per-severity deduction weights from calculateScore. -/
def severityWeight : Severity → Nat
  | .critical => 25
  | .high => 15
  | .medium => 8
  | .low => 3
  | .info => 0

/-- One step of the breakdown tally in calculateScore. -/
def bumpCount : List (String × Nat) → String → List (String × Nat)
  | [], k => [(k, 1)]
  | (k0, n) :: rest, k =>
    if k0 = k then (k0, n + 1) :: rest else (k0, n) :: bumpCount rest k

/-- calculateScore from server.ts: empty findings short-circuit to the
no_findings result; otherwise deductions are summed, clamped at zero from
100, and bucketed into good / needs_attention / critical. -/
def calculateScore (findings : List Finding) : ScoreResult :=
  if findings.isEmpty then { score := 100, status := "no_findings", breakdown := [] }
  else
    let deductions : Nat := (findings.map fun f => severityWeight f.severity).sum
    let breakdown :=
      findings.foldl (fun b f => bumpCount b (severityName f.severity)) []
    let score : Int := max 0 (100 - (deductions : Int))
    { score := score,
      status :=
        if 80 ≤ score then "good"
        else if 50 ≤ score then "needs_attention"
        else "critical",
      breakdown := breakdown }

/-! ## Lemmas about deduplication -/

/-- Proof helper: the seen-key set after the dedup filter has processed a
list of findings. -/
def seenAfter (seen : List String) : List Finding → List String
  | [] => seen
  | f :: rest =>
    if findingKey f ∈ seen then seenAfter seen rest
    else seenAfter (findingKey f :: seen) rest

theorem dedupAux_append (l₁ l₂ : List Finding) :
    ∀ seen, dedupAux seen (l₁ ++ l₂)
      = dedupAux seen l₁ ++ dedupAux (seenAfter seen l₁) l₂ := by
  induction l₁ with
  | nil => intro seen; simp [dedupAux, seenAfter]
  | cons f rest ih =>
    intro seen
    by_cases h : findingKey f ∈ seen <;>
      simp [dedupAux, seenAfter, h, ih]

theorem mem_seenAfter (a : String) :
    ∀ (l : List Finding) (seen : List String), a ∈ seen → a ∈ seenAfter seen l := by
  intro l
  induction l with
  | nil => intro seen h; simpa [seenAfter] using h
  | cons f rest ih =>
    intro seen h
    by_cases hf : findingKey f ∈ seen
    · simpa [seenAfter, hf] using ih seen h
    · simpa [seenAfter, hf] using ih (findingKey f :: seen) (List.mem_cons_of_mem _ h)

theorem findingKey_mem_seenAfter (f : Finding) :
    ∀ (l : List Finding) (seen : List String), f ∈ l → findingKey f ∈ seenAfter seen l := by
  intro l
  induction l with
  | nil => intro seen h; cases h
  | cons g rest ih =>
    intro seen h
    rcases List.mem_cons.mp h with hfg | hmem
    · subst hfg
      by_cases hg : findingKey f ∈ seen
      · simpa [seenAfter, hg] using mem_seenAfter _ rest seen hg
      · simpa [seenAfter, hg] using
          mem_seenAfter _ rest (findingKey f :: seen) (List.mem_cons_self _ _)
    · by_cases hg : findingKey g ∈ seen
      · simpa [seenAfter, hg] using ih seen hmem
      · simpa [seenAfter, hg] using ih (findingKey g :: seen) hmem

theorem dedupAux_eq_nil (l : List Finding) (seen : List String)
    (h : ∀ f ∈ l, findingKey f ∈ seen) : dedupAux seen l = [] := by
  induction l with
  | nil => simp [dedupAux]
  | cons f rest ih =>
    have hf : findingKey f ∈ seen := h f (List.mem_cons_self _ _)
    simp [dedupAux, hf]
    exact ih fun g hg => h g (List.mem_cons_of_mem _ hg)

/-- C9: deduplication is idempotent — merging a findings list with itself
concatenated yields the same deduplicated list as deduplicating it once. -/
theorem dedup_idempotent_on_self_concat (l : List Finding) :
    deduplicateFindings (l ++ l) = deduplicateFindings l := by
  unfold deduplicateFindings
  rw [dedupAux_append]
  have h : dedupAux (seenAfter [] l) l = [] :=
    dedupAux_eq_nil l _ fun f hf => findingKey_mem_seenAfter f l [] hf
  simp [h]

/-! ## The claimed tuple-key dedup policy (C3) -/

/-- Modelled from the claim text for C3: the (file, line, cwe-or-title)
tuple, with the cwe component taken whenever the cwe field is present. -/
def claimTupleKey (f : Finding) : String × Option Nat × String :=
  (f.file, f.line,
    match f.cwe with
    | some c => c
    | none => f.title)

/-- Modelled from the claim text for C3: keep each finding exactly when no
earlier finding of the list has an equal tuple key. -/
def dedupByTupleKey (earlier : List (String × Option Nat × String)) :
    List Finding → List Finding
  | [] => []
  | f :: rest =>
    if claimTupleKey f ∈ earlier then dedupByTupleKey (claimTupleKey f :: earlier) rest
    else f :: dedupByTupleKey (claimTupleKey f :: earlier) rest

/-- Modelled from the amended claim for C3: keep each finding exactly when
no earlier finding of the list has an equal serialized key string. -/
def dedupByKeyString (earlier : List String) : List Finding → List Finding
  | [] => []
  | f :: rest =>
    if findingKey f ∈ earlier then dedupByKeyString (findingKey f :: earlier) rest
    else f :: dedupByKeyString (findingKey f :: earlier) rest

theorem dedupAux_eq_dedupByKeyString :
    ∀ (l : List Finding) (seen earlier : List String),
      (∀ k, k ∈ seen ↔ k ∈ earlier) → dedupAux seen l = dedupByKeyString earlier l := by
  intro l
  induction l with
  | nil => intro seen earlier _; simp [dedupAux, dedupByKeyString]
  | cons f rest ih =>
    intro seen earlier h
    by_cases hf : findingKey f ∈ seen
    · have hf' : findingKey f ∈ earlier := (h _).mp hf
      simp only [dedupAux, dedupByKeyString, if_pos hf, if_pos hf']
      exact ih seen (findingKey f :: earlier) fun k =>
        ⟨fun hk => List.mem_cons_of_mem _ ((h k).mp hk),
         fun hk => by
           rcases List.mem_cons.mp hk with hk | hk
           · subst hk; exact hf
           · exact (h k).mpr hk⟩
    · have hf' : findingKey f ∉ earlier := fun hc => hf ((h _).mpr hc)
      simp only [dedupAux, dedupByKeyString, if_neg hf, if_neg hf']
      congr 1
      exact ih (findingKey f :: seen) (findingKey f :: earlier) fun k => by
        constructor
        · intro hk
          rcases List.mem_cons.mp hk with hk | hk
          · subst hk; exact List.mem_cons_self _ _
          · exact List.mem_cons_of_mem _ ((h k).mp hk)
        · intro hk
          rcases List.mem_cons.mp hk with hk | hk
          · subst hk; exact List.mem_cons_self _ _
          · exact List.mem_cons_of_mem _ ((h k).mpr hk)

/-- Finding used to refute the tuple-key reading of the dedup policy: its
serialized key is x:1:2:t because the file name contains a colon. -/
def colonFileFinding : Finding :=
  { id := "SAST-1", severity := Severity.high, title := "t", description := "d",
    file := "x:1", line := some 2, cwe := none, compliance := none,
    remediation := "r", code_snippet := none, fix_snippet := none }

/-- Second finding with a different (file, line, title) tuple whose
serialized key is also x:1:2:t. -/
def plainFileFinding : Finding :=
  { id := "DAST-1", severity := Severity.high, title := "2:t", description := "d",
    file := "x", line := some 1, cwe := none, compliance := none,
    remediation := "r", code_snippet := none, fix_snippet := none }

/-- C3 counterexample: the two findings have different (file, line,
cwe-or-title) tuples, so the claim says both survive, yet the code drops
the second because the colon-joined key strings collide. -/
theorem dedup_tuple_key_policy_refuted :
    claimTupleKey colonFileFinding ≠ claimTupleKey plainFileFinding
    ∧ plainFileFinding ∉ deduplicateFindings [colonFileFinding, plainFileFinding]
    ∧ deduplicateFindings [colonFileFinding, plainFileFinding] = [colonFileFinding]
    ∧ dedupByTupleKey [] [colonFileFinding, plainFileFinding]
        = [colonFileFinding, plainFileFinding] := by
  refine ⟨by decide, by decide, by decide, by decide⟩

/-- C3 amended: deduplication keeps a finding exactly when no earlier
finding of the list has an equal serialized key string
file ++ colon ++ line ++ colon ++ (cwe when present and non-empty,
otherwise title); among equal keys the first-inserted survives. -/
theorem dedup_first_occurrence_by_key_string (l : List Finding) :
    deduplicateFindings l = dedupByKeyString [] l :=
  dedupAux_eq_dedupByKeyString l [] [] (by simp)

/-! ## Lemmas about the scanner client and the router -/

theorem scan_findings_eq (name ts : String) (o : FetchOutcome) :
    (ScannerClient.scan name ts o).findings = successFindings o := by
  cases o with
  | fetchError msg => rfl
  | httpResponse ok status body => cases ok <;> cases body <;> rfl

theorem scan_warnings_none_of_clean (name ts : String) (o : FetchOutcome)
    (h : o.cleanSuccess = true) :
    (ScannerClient.scan name ts o).metadata.warnings = none := by
  cases o with
  | fetchError msg => simp [FetchOutcome.cleanSuccess] at h
  | httpResponse ok status body =>
    cases ok with
    | false => simp [FetchOutcome.cleanSuccess] at h
    | true =>
      cases body with
      | error e => simp [FetchOutcome.cleanSuccess] at h
      | ok r =>
        simp only [FetchOutcome.cleanSuccess, Option.isNone_iff_eq_none] at h
        simpa [ScannerClient.scan] using h

theorem scan_degraded_of_failure (name ts : String) (o : FetchOutcome)
    (h : o.isSuccess = false) :
    ∃ msg, ScannerClient.scan name ts o = degradedResult name ts msg := by
  cases o with
  | fetchError msg => exact ⟨msg, rfl⟩
  | httpResponse ok status body =>
    cases ok with
    | false => exact ⟨"Scanner " ++ name ++ " returned " ++ toString status, rfl⟩
    | true =>
      cases body with
      | error e => exact ⟨e, rfl⟩
      | ok r => simp [FetchOutcome.isSuccess] at h

theorem successFindings_nil_of_failure (o : FetchOutcome) (h : o.isSuccess = false) :
    successFindings o = [] := by
  cases o with
  | fetchError msg => rfl
  | httpResponse ok status body =>
    cases ok with
    | false => rfl
    | true =>
      cases body with
      | error e => rfl
      | ok r => simp [FetchOutcome.isSuccess] at h

theorem filterMap_scan_warnings_nil (ts : String) :
    ∀ (l : List (String × FetchOutcome)),
      (∀ c ∈ l, FetchOutcome.cleanSuccess c.2 = true) →
      ((l.map fun c => ScannerClient.scan c.1 ts c.2).filterMap
        fun r => r.metadata.warnings) = [] := by
  intro l
  induction l with
  | nil => intro _; simp
  | cons c rest ih =>
    intro h
    have hc := scan_warnings_none_of_clean c.1 ts c.2 (h c (List.mem_cons_self _ _))
    simp only [List.map_cons, List.filterMap_cons, hc]
    exact ih fun d hd => h d (List.mem_cons_of_mem _ hd)

theorem map_scan_findings (ts : String) (l : List (String × FetchOutcome)) :
    (l.map fun c => ScannerClient.scan c.1 ts c.2).map ScanResult.findings
      = l.map fun c => successFindings c.2 := by
  induction l with
  | nil => rfl
  | cons c rest ih => simp [scan_findings_eq, ih]

/-- C1: when exactly one dispatched backend of a scanAll call fails its RPC
and every other dispatched backend succeeds (with warning-free results),
the merged findings are the deduplicated concatenation of the succeeding
backends findings, and the merged warnings are exactly one entry, the
unavailable-message naming the failed backend. scanAll is a total function
of the outcomes, so the failure neither aborts the merge nor fails the
call. -/
theorem scanAll_one_failed_backend
    (pre post : List (String × FetchOutcome)) (fname : String) (ofail : FetchOutcome)
    (request : ScanRequest) (dur : Nat) (ts : String)
    (hfail : ofail.isSuccess = false)
    (hpre : ∀ c ∈ pre, FetchOutcome.cleanSuccess c.2 = true)
    (hpost : ∀ c ∈ post, FetchOutcome.cleanSuccess c.2 = true) :
    (Router.scanAll (pre ++ (fname, ofail) :: post) request none dur ts).findings
      = deduplicateFindings (((pre ++ post).map fun c => successFindings c.2).flatten)
    ∧ ∃ reason,
        (Router.scanAll (pre ++ (fname, ofail) :: post) request none dur ts).metadata.warnings
          = some [scannerUnavailableMsg fname reason] := by
  obtain ⟨msg, hdeg⟩ := scan_degraded_of_failure fname ts ofail hfail
  constructor
  · have hcomp : (ScanResult.findings ∘ fun c : String × FetchOutcome =>
        ScannerClient.scan c.1 ts c.2) = fun c => successFindings c.2 :=
      funext fun c => scan_findings_eq c.1 ts c.2
    simp [Router.scanAll, hcomp, scan_findings_eq,
          successFindings_nil_of_failure _ hfail]
  · refine ⟨msg, ?_⟩
    simp [Router.scanAll, List.filterMap_append, filterMap_scan_warnings_nil ts pre hpre,
          filterMap_scan_warnings_nil ts post hpost, hdeg, degradedResult]

/-! ### Concrete data for witnesses -/

/-- Example scan request (the scenario from the design document). -/
def exampleRequest : ScanRequest :=
  { files := [{ path := "x.js", content := some "eval(input)" }],
    profile := { name := "standard", rules := [] },
    context :=
      { language := none, framework := none, rootDir := some ".",
        target_url := none } }

/-- Example sast finding. -/
def evalFinding : Finding :=
  { id := "SAST-001", severity := Severity.high, title := "Use of eval",
    description := "Dynamic code execution", file := "x.js", line := some 1,
    cwe := some "CWE-95", compliance := none,
    remediation := "Avoid eval", code_snippet := none, fix_snippet := none }

/-- Example deps finding. -/
def lodashFinding : Finding :=
  { id := "DEPS-001", severity := Severity.medium, title := "Vulnerable lodash",
    description := "Known CVE", file := "package.json", line := none,
    cwe := some "CWE-1395", compliance := none,
    remediation := "Upgrade", code_snippet := none, fix_snippet := none }

/-- Example successful sast backend response. -/
def sastOkResult : ScanResult :=
  { findings := [evalFinding],
    metadata :=
      { scanner := "sast", version := "0.1.0", duration_ms := 12,
        files_scanned := 1, timestamp := "2024-01-01T00:00:00.000Z",
        warnings := none } }

/-- Example successful deps backend response. -/
def depsOkResult : ScanResult :=
  { findings := [lodashFinding],
    metadata :=
      { scanner := "deps", version := "0.1.0", duration_ms := 8,
        files_scanned := 1, timestamp := "2024-01-01T00:00:00.000Z",
        warnings := none } }

/-- Witness for C1: a sast and a deps backend succeed while the secrets
backend RPC fails; the instantiated conclusion of the claim theorem. -/
theorem scanAll_one_failed_backend_app :
    (Router.scanAll
        ([("sast", FetchOutcome.httpResponse true 200 (Except.ok sastOkResult))]
          ++ ("secrets", FetchOutcome.fetchError "fetch failed")
          :: [("deps", FetchOutcome.httpResponse true 200 (Except.ok depsOkResult))])
        exampleRequest none 20 "2024-01-01T00:00:00.000Z").findings
      = deduplicateFindings
          ((([("sast", FetchOutcome.httpResponse true 200 (Except.ok sastOkResult))]
              ++ [("deps", FetchOutcome.httpResponse true 200 (Except.ok depsOkResult))]).map
            fun c => successFindings c.2).flatten)
    ∧ ∃ reason,
        (Router.scanAll
            ([("sast", FetchOutcome.httpResponse true 200 (Except.ok sastOkResult))]
              ++ ("secrets", FetchOutcome.fetchError "fetch failed")
              :: [("deps", FetchOutcome.httpResponse true 200 (Except.ok depsOkResult))])
            exampleRequest none 20 "2024-01-01T00:00:00.000Z").metadata.warnings
          = some [scannerUnavailableMsg "secrets" reason] :=
  scanAll_one_failed_backend
    [("sast", FetchOutcome.httpResponse true 200 (Except.ok sastOkResult))]
    [("deps", FetchOutcome.httpResponse true 200 (Except.ok depsOkResult))]
    "secrets" (FetchOutcome.fetchError "fetch failed")
    exampleRequest 20 "2024-01-01T00:00:00.000Z" rfl
    (by simp [FetchOutcome.cleanSuccess, sastOkResult])
    (by simp [FetchOutcome.cleanSuccess, depsOkResult])

/-- C4: ScannerClient.scan is a total function of the fetch outcome (it
cannot raise), and on every non-success outcome — rejected fetch, non-ok
status, or unparseable body — it returns a degraded result with empty
findings whose warnings are a single unavailable-string naming the
scanner. -/
theorem scan_failure_degrades (name ts : String) (o : FetchOutcome)
    (h : o.isSuccess = false) :
    (ScannerClient.scan name ts o).findings = []
    ∧ ∃ reason, (ScannerClient.scan name ts o).metadata.warnings
        = some [scannerUnavailableMsg name reason] := by
  obtain ⟨msg, hm⟩ := scan_degraded_of_failure name ts o h
  rw [hm]
  exact ⟨rfl, ⟨msg, rfl⟩⟩

/-- Witness for C4 at a rejected fetch. -/
theorem scan_failure_degrades_app :
    (ScannerClient.scan "sast" "2024-01-01T00:00:00.000Z"
        (FetchOutcome.fetchError "fetch failed")).findings = []
    ∧ ∃ reason, (ScannerClient.scan "sast" "2024-01-01T00:00:00.000Z"
        (FetchOutcome.fetchError "fetch failed")).metadata.warnings
          = some [scannerUnavailableMsg "sast" reason] :=
  scan_failure_degrades "sast" "2024-01-01T00:00:00.000Z"
    (FetchOutcome.fetchError "fetch failed") rfl

/-- C8: scanWith on a name that is not an enabled backend returns the
empty result with zero duration and no warnings entry instead of
raising. -/
theorem scanWith_unknown_backend (clients : List (String × FetchOutcome))
    (name : String) (request : ScanRequest) (ts : String)
    (h : alistGet clients name = none) :
    (Router.scanWith clients name request ts).findings = []
    ∧ (Router.scanWith clients name request ts).metadata.duration_ms = 0
    ∧ (Router.scanWith clients name request ts).metadata.warnings = none := by
  simp [Router.scanWith, h]

/-- Witness for C8 with one enabled sast backend and an unknown name. -/
theorem scanWith_unknown_backend_app :
    (Router.scanWith [("sast", FetchOutcome.httpResponse true 200 (Except.ok sastOkResult))]
        "nonexistent" exampleRequest "2024-01-01T00:00:00.000Z").findings = []
    ∧ (Router.scanWith [("sast", FetchOutcome.httpResponse true 200 (Except.ok sastOkResult))]
        "nonexistent" exampleRequest "2024-01-01T00:00:00.000Z").metadata.duration_ms = 0
    ∧ (Router.scanWith [("sast", FetchOutcome.httpResponse true 200 (Except.ok sastOkResult))]
        "nonexistent" exampleRequest "2024-01-01T00:00:00.000Z").metadata.warnings = none :=
  scanWith_unknown_backend
    [("sast", FetchOutcome.httpResponse true 200 (Except.ok sastOkResult))]
    "nonexistent" exampleRequest "2024-01-01T00:00:00.000Z" rfl

/-- C2: evidence of the divergence on the licensed REST path. The handler
comments document that an unreachable license server must let the scan
proceed in offline mode, but validate swallows the network error and
returns the invalid verdict, so the gate answers 403: the catch branch
meant to implement offline mode is unreachable. -/
theorem licenseGate_unreachable_rejects :
    scanLicenseGate [] "test-key" 0 RemoteBehavior.unreachable = GateDecision.reject403
    ∧ (LicenseClient.validate [] "test-key" 0 RemoteBehavior.unreachable).result
        = INVALID_RESULT :=
  ⟨rfl, rfl⟩

/-! ## License cache lemmas (C6) -/

theorem alistGet_alistSet_self {α : Type} (m : List (String × α)) (k : String) (v : α) :
    alistGet (alistSet m k v) k = some v := by
  induction m with
  | nil => simp [alistGet, alistSet]
  | cons p rest ih =>
    obtain ⟨k0, w⟩ := p
    by_cases h : k0 = k <;> simp [alistGet, alistSet, h, ih]

theorem validateRemote_called (cache : List (String × CacheEntry)) (key : String)
    (now : Nat) (remote : RemoteBehavior) :
    (LicenseClient.validateRemote cache key now remote).remoteCalled = true := by
  cases remote with
  | ok v => by_cases h : v.valid <;> simp [LicenseClient.validateRemote, h]
  | httpError => rfl
  | unreachable => rfl

/-- C6: starting from a key not in the cache, a first validate with a valid
remote verdict contacts the authority and caches the verdict; a second call
within the TTL answers from the cache without a remote call and with the
same verdict; a call at or past the TTL expiry contacts the authority
again. An invalid verdict, a non-ok status and an unreachable server all
leave the cache unchanged, so the very next call contacts the authority
again. -/
theorem validate_ttl_cache
    (cache : List (String × CacheEntry)) (key : String) (t0 t1 t2 : Nat)
    (v w : LicenseValidation) (r2 r3 : RemoteBehavior)
    (hmiss : alistGet cache key = none)
    (hvalid : v.valid = true)
    (hinvalid : w.valid = false)
    (h01 : t1 < t0 + CACHE_TTL_MS)
    (h02 : t0 + CACHE_TTL_MS ≤ t2) :
    (LicenseClient.validate cache key t0 (RemoteBehavior.ok v)).remoteCalled = true
    ∧ (LicenseClient.validate cache key t0 (RemoteBehavior.ok v)).result = v
    ∧ (LicenseClient.validate (LicenseClient.validate cache key t0 (RemoteBehavior.ok v)).cache
        key t1 r2).remoteCalled = false
    ∧ (LicenseClient.validate (LicenseClient.validate cache key t0 (RemoteBehavior.ok v)).cache
        key t1 r2).result = v
    ∧ (LicenseClient.validate (LicenseClient.validate cache key t0 (RemoteBehavior.ok v)).cache
        key t2 r3).remoteCalled = true
    ∧ (LicenseClient.validate cache key t0 (RemoteBehavior.ok w)).cache = cache
    ∧ (LicenseClient.validate cache key t0 RemoteBehavior.httpError).cache = cache
    ∧ (LicenseClient.validate cache key t0 RemoteBehavior.unreachable).cache = cache
    ∧ (LicenseClient.validate (LicenseClient.validate cache key t0 (RemoteBehavior.ok w)).cache
        key t1 r2).remoteCalled = true
    ∧ (LicenseClient.validate (LicenseClient.validate cache key t0 RemoteBehavior.httpError).cache
        key t1 r2).remoteCalled = true
    ∧ (LicenseClient.validate (LicenseClient.validate cache key t0 RemoteBehavior.unreachable).cache
        key t1 r2).remoteCalled = true := by
  have hstep : LicenseClient.validate cache key t0 (RemoteBehavior.ok v)
      = { result := v,
          cache := alistSet cache key { result := v, expiry := t0 + CACHE_TTL_MS },
          remoteCalled := true } := by
    simp [LicenseClient.validate, hmiss, LicenseClient.validateRemote, hvalid]
  have hget := alistGet_alistSet_self cache key
    ({ result := v, expiry := t0 + CACHE_TTL_MS } : CacheEntry)
  have hw : LicenseClient.validate cache key t0 (RemoteBehavior.ok w)
      = { result := w, cache := cache, remoteCalled := true } := by
    simp [LicenseClient.validate, hmiss, LicenseClient.validateRemote, hinvalid]
  have hh : LicenseClient.validate cache key t0 RemoteBehavior.httpError
      = { result := INVALID_RESULT, cache := cache, remoteCalled := true } := by
    simp [LicenseClient.validate, hmiss, LicenseClient.validateRemote]
  have hu : LicenseClient.validate cache key t0 RemoteBehavior.unreachable
      = { result := INVALID_RESULT, cache := cache, remoteCalled := true } := by
    simp [LicenseClient.validate, hmiss, LicenseClient.validateRemote]
  have hnot : ¬ t2 < t0 + CACHE_TTL_MS := by omega
  refine ⟨?_, ?_, ?_, ?_, ?_, ?_, ?_, ?_, ?_, ?_, ?_⟩
  · rw [hstep]
  · rw [hstep]
  · rw [hstep]; simp [LicenseClient.validate, hget, h01]
  · rw [hstep]; simp [LicenseClient.validate, hget, h01]
  · rw [hstep]; simp [LicenseClient.validate, hget, hnot, validateRemote_called]
  · rw [hw]
  · rw [hh]
  · rw [hu]
  · rw [hw]; simp [LicenseClient.validate, hmiss, validateRemote_called]
  · rw [hh]; simp [LicenseClient.validate, hmiss, validateRemote_called]
  · rw [hu]; simp [LicenseClient.validate, hmiss, validateRemote_called]

/-- Verdict used for the C6 witness. -/
def proVerdict : LicenseValidation :=
  { valid := true, plan := some "pro", features := ["scan"], expires_at := none }

/-- Invalid verdict used for the C6 witness. -/
def rejectedVerdict : LicenseValidation :=
  { valid := false, plan := none, features := [], expires_at := none }

/-- Witness for C6 with an empty cache, a first call at time 0, a second at
time 1000, and a third exactly at TTL expiry. -/
theorem validate_ttl_cache_app :
    (LicenseClient.validate [] "key-1" 0 (RemoteBehavior.ok proVerdict)).remoteCalled = true
    ∧ (LicenseClient.validate [] "key-1" 0 (RemoteBehavior.ok proVerdict)).result = proVerdict
    ∧ (LicenseClient.validate (LicenseClient.validate [] "key-1" 0 (RemoteBehavior.ok proVerdict)).cache
        "key-1" 1000 RemoteBehavior.unreachable).remoteCalled = false
    ∧ (LicenseClient.validate (LicenseClient.validate [] "key-1" 0 (RemoteBehavior.ok proVerdict)).cache
        "key-1" 1000 RemoteBehavior.unreachable).result = proVerdict
    ∧ (LicenseClient.validate (LicenseClient.validate [] "key-1" 0 (RemoteBehavior.ok proVerdict)).cache
        "key-1" CACHE_TTL_MS RemoteBehavior.httpError).remoteCalled = true
    ∧ (LicenseClient.validate [] "key-1" 0 (RemoteBehavior.ok rejectedVerdict)).cache = []
    ∧ (LicenseClient.validate [] "key-1" 0 RemoteBehavior.httpError).cache = []
    ∧ (LicenseClient.validate [] "key-1" 0 RemoteBehavior.unreachable).cache = []
    ∧ (LicenseClient.validate (LicenseClient.validate [] "key-1" 0 (RemoteBehavior.ok rejectedVerdict)).cache
        "key-1" 1000 RemoteBehavior.unreachable).remoteCalled = true
    ∧ (LicenseClient.validate (LicenseClient.validate [] "key-1" 0 RemoteBehavior.httpError).cache
        "key-1" 1000 RemoteBehavior.unreachable).remoteCalled = true
    ∧ (LicenseClient.validate (LicenseClient.validate [] "key-1" 0 RemoteBehavior.unreachable).cache
        "key-1" 1000 RemoteBehavior.unreachable).remoteCalled = true :=
  validate_ttl_cache [] "key-1" 0 1000 CACHE_TTL_MS proVerdict rejectedVerdict
    RemoteBehavior.unreachable RemoteBehavior.httpError rfl rfl rfl
    (by norm_num [CACHE_TTL_MS]) (by omega)

/-- C7: setActive on an unregistered name throws the message enumerating
the registered profile names and leaves the state — hence the active
profile returned by getActive — unchanged. -/
theorem setActive_unknown_profile (pm : ProfileManagerState) (name : String)
    (h : alistGet pm.profiles name = none) :
    (ProfileManager.setActive pm name).1
      = Except.error ("Unknown profile: " ++ name ++ ". Available: "
          ++ String.intercalate ", " (ProfileManager.listProfiles pm))
    ∧ (ProfileManager.setActive pm name).2 = pm
    ∧ ProfileManager.getActive (ProfileManager.setActive pm name).2
        = ProfileManager.getActive pm := by
  simp [ProfileManager.setActive, h]

/-- Witness for C7 on the built-in registry with the name nonexistent. -/
theorem setActive_unknown_profile_app :
    (ProfileManager.setActive ProfileManager.init "nonexistent").1
      = Except.error ("Unknown profile: " ++ "nonexistent" ++ ". Available: "
          ++ String.intercalate ", " (ProfileManager.listProfiles ProfileManager.init))
    ∧ (ProfileManager.setActive ProfileManager.init "nonexistent").2 = ProfileManager.init
    ∧ ProfileManager.getActive (ProfileManager.setActive ProfileManager.init "nonexistent").2
        = ProfileManager.getActive ProfileManager.init :=
  setActive_unknown_profile ProfileManager.init "nonexistent" rfl

/-- C10: the security score is 100 minus the summed severity weights
(critical 25, high 15, medium 8, low 3, info 0) clamped below at 0, hence
always within 0 and 100; an empty findings list scores 100 with status
no_findings, a non-empty list is bucketed good / needs_attention /
critical by the 80 and 50 thresholds, and a non-empty all-info list scores
100 with status good rather than no_findings. -/
theorem calculateScore_weighted (findings : List Finding) :
    (calculateScore findings).score
        = max 0 (100 - (((findings.map fun f => severityWeight f.severity).sum : Nat) : Int))
    ∧ 0 ≤ (calculateScore findings).score
    ∧ (calculateScore findings).score ≤ 100
    ∧ (calculateScore []).score = 100
    ∧ (calculateScore []).status = "no_findings"
    ∧ (findings ≠ [] →
        (calculateScore findings).status
          = (if 80 ≤ (calculateScore findings).score then "good"
             else if 50 ≤ (calculateScore findings).score then "needs_attention"
             else "critical"))
    ∧ (findings ≠ [] → (∀ f ∈ findings, f.severity = Severity.info) →
        (calculateScore findings).score = 100
        ∧ (calculateScore findings).status = "good") := by
  have hscore : (calculateScore findings).score
      = max 0 (100 - (((findings.map fun f => severityWeight f.severity).sum : Nat) : Int)) := by
    by_cases h : findings = []
    · subst h; simp [calculateScore]
    · simp [calculateScore, h]
  refine ⟨hscore, ?_, ?_, by simp [calculateScore], by simp [calculateScore], ?_, ?_⟩
  · rw [hscore]; exact le_max_left 0 _
  · rw [hscore]
    have hd : (0:Int) ≤ (((findings.map fun f => severityWeight f.severity).sum : Nat) : Int) :=
      Int.natCast_nonneg _
    apply max_le (by norm_num) (by omega)
  · intro hne
    simp [calculateScore, hne]
  · intro hne hinfo
    have hzero : (findings.map fun f => severityWeight f.severity).sum = 0 := by
      apply List.sum_eq_zero
      intro x hx
      obtain ⟨f, hf, rfl⟩ := List.mem_map.mp hx
      rw [hinfo f hf]
      rfl
    constructor
    · rw [hscore, hzero]; rfl
    · simp [calculateScore, hne, hzero]

/-- Info-severity finding used for the C10 witness. -/
def headerFinding : Finding :=
  { id := "POSTURE-001", severity := Severity.info, title := "Server header present",
    description := "d", file := "http://localhost:3000", line := none, cwe := none,
    compliance := none, remediation := "r", code_snippet := none, fix_snippet := none }

/-- Witness for C10: a non-empty all-info findings list scores 100 with
status good. -/
theorem calculateScore_weighted_app :
    (calculateScore [headerFinding]).score = 100
    ∧ (calculateScore [headerFinding]).status = "good" :=
  (calculateScore_weighted [headerFinding]).2.2.2.2.2.2
    (by simp) (by intro f hf; simp at hf; rw [hf]; rfl)

/-! ## Deep-merge lemmas and the custom-profile scenario (C5) -/


theorem alistGet_alistSet_ne {α : Type} (m : List (String × α)) (k0 k : String) (v : α)
    (h : k0 ≠ k) : alistGet (alistSet m k0 v) k = alistGet m k := by
  induction m with
  | nil => simp [alistGet, alistSet, h]
  | cons p rest ih =>
    obtain ⟨k1, w⟩ := p
    by_cases h1 : k1 = k0 <;> simp [alistGet, alistSet, h1, h, ih]

theorem alistGet_eq_none_of_not_mem {α : Type} (m : List (String × α)) (k : String)
    (h : k ∉ m.map Prod.fst) : alistGet m k = none := by
  induction m with
  | nil => rfl
  | cons p rest ih =>
    obtain ⟨k1, w⟩ := p
    simp only [List.map_cons, List.mem_cons] at h
    push_neg at h
    have h1 : k1 ≠ k := fun hc => h.1 hc.symm
    simp [alistGet, h1, ih h.2]

/-- Proof helper naming the per-field decision of deepMerge: when both the
target field and the source field hold objects the merge recurses,
otherwise the source value replaces the target value. -/
def mergeValue (tv : Option JsonVal) (sv : JsonVal) : JsonVal :=
  match tv, sv with
  | some (JsonVal.obj tf), JsonVal.obj sf => JsonVal.obj (deepMergeAux tf tf sf)
  | _, _ => sv

theorem mergeValue_self (tv : Option JsonVal) (sv : JsonVal)
    (hne : ∀ tf sf, tv = some (JsonVal.obj tf) → sv = JsonVal.obj sf → False) :
    mergeValue tv sv = sv := by
  unfold mergeValue
  split
  · rename_i tf sf
    exact (hne tf sf rfl rfl).elim
  · rfl

theorem deepMergeAux_cons (target acc : List (String × JsonVal)) (k0 : String)
    (sv : JsonVal) (rest : List (String × JsonVal)) (h : k0 ≠ "extends") :
    deepMergeAux target acc ((k0, sv) :: rest)
      = deepMergeAux target (alistSet acc k0 (mergeValue (alistGet target k0) sv)) rest := by
  rw [deepMergeAux.eq_def]
  simp only [if_neg h]
  split
  · rename_i tf sf heq
    rw [heq]
    rfl
  · rename_i hne
    rw [mergeValue_self _ _ hne]

theorem deepMergeAux_extends_cons (target acc : List (String × JsonVal))
    (sv : JsonVal) (rest : List (String × JsonVal)) :
    deepMergeAux target acc (("extends", sv) :: rest) = deepMergeAux target acc rest := by
  rw [deepMergeAux.eq_def]
  simp

theorem alistGet_deepMergeAux :
    ∀ (source target acc : List (String × JsonVal)) (k : String),
      (source.map Prod.fst).Nodup → k ≠ "extends" →
      alistGet (deepMergeAux target acc source) k
        = match alistGet source k with
          | none => alistGet acc k
          | some sv => some (mergeValue (alistGet target k) sv) := by
  intro source
  induction source with
  | nil => intro target acc k _ _; simp [deepMergeAux, alistGet]
  | cons p rest ih =>
    obtain ⟨k0, sv⟩ := p
    intro target acc k hnd hk
    have hnd2 : (rest.map Prod.fst).Nodup := by
      simp only [List.map_cons, List.nodup_cons] at hnd
      exact hnd.2
    have hmem : k0 ∉ rest.map Prod.fst := by
      simp only [List.map_cons, List.nodup_cons] at hnd
      exact hnd.1
    by_cases hke : k0 = "extends"
    · subst hke
      rw [deepMergeAux_extends_cons, ih target acc k hnd2 hk]
      have hsrc : alistGet (("extends", sv) :: rest) k = alistGet rest k := by
        simp [alistGet, Ne.symm hk]
      rw [hsrc]
    · rw [deepMergeAux_cons target acc k0 sv rest hke]
      rw [ih target (alistSet acc k0 (mergeValue (alistGet target k0) sv)) k hnd2 hk]
      by_cases hkk : k0 = k
      · subst hkk
        have hnone : alistGet rest k0 = none := alistGet_eq_none_of_not_mem rest k0 hmem
        rw [hnone]
        simp [alistGet, alistGet_alistSet_self]
      · have hsrc : alistGet ((k0, sv) :: rest) k = alistGet rest k := by
          simp [alistGet, hkk]
        rw [hsrc]
        rcases hr : alistGet rest k with _ | sv2
        · simp [alistGet_alistSet_ne acc k0 k _ hkk]
        · simp



/-- Override object of the C5 scenario: extends standard, disable the
secrets rule. -/
def customOverrideFields : List (String × JsonVal) :=
  [("extends", JsonVal.str "standard"),
   ("rules", JsonVal.obj [("secrets", JsonVal.obj [("enabled", JsonVal.bool false)])])]

/-- The merged custom profile the C5 scenario must produce: the standard
profile with name custom and the secrets rule disabled. -/
def customMergedFields : List (String × JsonVal) :=
  [("name", JsonVal.str "custom"),
   ("version", JsonVal.str "1.0"),
   ("description", JsonVal.str "Standard security profile — OWASP Top 10, common CVEs, secrets detection"),
   ("severity_thresholds", JsonVal.obj
     [("error", JsonVal.str "high"), ("warn", JsonVal.str "medium")]),
   ("rules", JsonVal.obj
     [("sast", JsonVal.obj
        [("enabled", JsonVal.bool true),
         ("rulesets", JsonVal.arr [JsonVal.str "owasp-top-10"])]),
      ("dependencies", JsonVal.obj
        [("enabled", JsonVal.bool true),
         ("max_cvss_score", JsonVal.num 7),
         ("require_lockfile", JsonVal.bool true)]),
      ("secrets", JsonVal.obj [("enabled", JsonVal.bool false)])])]

/-- C5: deepMerge merges object-valued fields recursively key-by-key and
replaces array- and scalar-valued fields outright (first conjunct, for
override objects with JS-unique keys); loading a custom profile that
extends standard with the secrets-disabling override yields the standard
profile with rules.secrets.enabled false, rules.sast and
rules.dependencies unchanged, name custom, the extends marker stripped,
and the result registered under custom. -/
theorem loadCustomProfile_extends_merge :
    (∀ target source k,
        (source.map Prod.fst).Nodup → k ≠ "extends" →
        alistGet (deepMerge target source) k
          = match alistGet source k with
            | none => alistGet target k
            | some sv => some (mergeValue (alistGet target k) sv))
    ∧ ProfileManager.loadCustomProfile builtInProfiles (some customOverrideFields)
        = Except.ok (some (alistSet builtInProfiles "custom" customMergedFields,
            customMergedFields))
    ∧ alistGet customMergedFields "name" = some (JsonVal.str "custom")
    ∧ alistGet customMergedFields "extends" = none
    ∧ jsonPath customMergedFields ["rules", "secrets", "enabled"]
        = some (JsonVal.bool false)
    ∧ jsonPath customMergedFields ["rules", "sast"]
        = jsonPath standardProfileFields ["rules", "sast"]
    ∧ jsonPath customMergedFields ["rules", "dependencies"]
        = jsonPath standardProfileFields ["rules", "dependencies"]
    ∧ alistGet (alistSet builtInProfiles "custom" customMergedFields) "custom"
        = some customMergedFields := by
  refine ⟨?_, ?_, ?_, ?_, ?_, ?_, ?_, ?_⟩
  · intro target source k hnd hk
    exact alistGet_deepMergeAux source target target k hnd hk
  · simp [ProfileManager.loadCustomProfile, builtInProfiles, standardProfileFields,
          customOverrideFields, customMergedFields, deepMerge, deepMergeAux,
          alistGet, alistSet, alistDelete]
  · simp [alistGet, customMergedFields]
  · simp [alistGet, customMergedFields]
  · simp [jsonPath, alistGet, customMergedFields]
  · simp [jsonPath, alistGet, customMergedFields, standardProfileFields]
  · simp [jsonPath, alistGet, customMergedFields, standardProfileFields]
  · simp [alistGet, alistSet, builtInProfiles]

/-- Witness for C5: the merge-policy conjunct instantiated at the standard
profile, the scenario override, and the rules key. -/
theorem loadCustomProfile_extends_merge_app :
    alistGet (deepMerge standardProfileFields customOverrideFields) "rules"
      = match alistGet customOverrideFields "rules" with
        | none => alistGet standardProfileFields "rules"
        | some sv => some (mergeValue (alistGet standardProfileFields "rules") sv) :=
  loadCustomProfile_extends_merge.1 standardProfileFields customOverrideFields "rules"
    (by decide) (by decide)


end Safeweave
